import Mathlib

/-!
Verification of the vastai-auto-pricer core logic: a shallow embedding of
the pure parts of `vastai_autopricer.py` (the market snapshot builder
`get_market_data` and the price decision engine `calculate_price` with its
helpers), together with theorems settling the specification claims.

Prices are modelled as rationals (the Python code uses floats; every claim
settled here is insensitive to float rounding anomalies).  Python's
`round(x, n)` rounds ties to even on the underlying binary float; the model
uses Mathlib's `round` (ties away from the lower value).  No input used in
any theorem below sits on a rounding tie, so the two agree on everything
proved here.  Python `Optional[float]` becomes `Option ℚ`; Python's
truthiness test on such a value (`if not market.median_price`) is modelled
by `truthy`, which is false exactly on `none` and `some 0`.  The one idle
branch that would raise a `TypeError` in Python (comparing the current
price with a `None` reference minimum) is modelled by returning `none`
from the decision function, which otherwise returns `some` decision.
-/

/-- Rounding to 4 decimal places, as in Python's `round(x, 4)`. -/
def round4 (q : ℚ) : ℚ := (round (q * 10000) : ℤ) / 10000

/-- Rounding to 2 decimal places, as in Python's `round(x, 2)`. -/
def round2 (q : ℚ) : ℚ := (round (q * 100) : ℤ) / 100

/-- Verification tier of a marketplace offer.  The source compares the raw
`verification` string against `verified`, `unverified` and `deverified`;
`other` stands for any further value (or a missing field). -/
inductive Verification where
  | verified
  | unverified
  | deverified
  | other
deriving DecidableEq, Repr

/-- One marketplace offer, with the fields `get_market_data` reads
(`dph_base`, `rented`, `verification`, `reliability2`); missing numeric
fields default to 0 and missing flags to false, as the `.get(...)` calls do. -/
structure Offer where
  dph_base : ℚ
  rented : Bool
  verification : Verification
  reliability2 : ℚ
deriving DecidableEq, Repr

/-- `MarketData` dataclass: aggregate market statistics. -/
structure MarketData where
  avg_price : Option ℚ
  median_price : Option ℚ
  min_price : Option ℚ
  available_count : ℕ
  verified_count : ℕ
  avg_reliability : ℚ
  min_verified_price : Option ℚ
  unverified_count : ℕ := 0
  unverified_avg_price : Option ℚ := none
  unverified_median_price : Option ℚ := none
  unverified_min_price : Option ℚ := none
deriving DecidableEq, Repr

/-- `PriceDecision` dataclass action tag: the source stores the strings
INCREASE, DECREASE and HOLD. -/
inductive PriceAction where
  | INCREASE
  | DECREASE
  | HOLD
deriving DecidableEq, Repr

/-- `PriceDecision` dataclass: new price, action tag and rationale. -/
structure PriceDecision where
  new_price : ℚ
  action : PriceAction
  reason : String
deriving DecidableEq, Repr

/-- `Machine` dataclass: one owned machine. -/
structure Machine where
  id : ℕ
  gpu_name : String
  num_gpus : ℕ
  current_price : ℚ
  is_rented : Bool
  verified : Bool
  reliability : ℚ
  disk_space : ℚ
  inet_down : ℚ
  inet_up : ℚ
deriving DecidableEq, Repr

/-- The pricing-relevant part of the process configuration built in `main`
(the `config` dict). -/
structure PricingConfig where
  interval_minutes : ℕ
  base_price : ℚ
  max_price : ℚ
  high_demand_threshold : ℕ
  low_demand_threshold : ℕ
  target_gpu : String
  target_num_gpus : ℕ
  test_mode : Bool
deriving DecidableEq, Repr

/-- Python truthiness of an `Optional[float]`: `None` and `0.0` are falsy. -/
def truthy (o : Option ℚ) : Prop :=
  match o with
  | none => False
  | some x => x ≠ 0

instance (o : Option ℚ) : Decidable (truthy o) :=
  match o with
  | none => inferInstanceAs (Decidable False)
  | some x => inferInstanceAs (Decidable (x ≠ 0))

@[simp] theorem truthy_none : ¬ truthy none := fun h => h

@[simp] theorem truthy_some (x : ℚ) : truthy (some x) ↔ x ≠ 0 := Iff.rfl

/-- The comprehension building `available_prices` in `get_market_data`:
prices of offers with `rented` false and `dph_base > 0`, in input order. -/
def availablePrices : List Offer → List ℚ
  | [] => []
  | o :: os =>
    if o.rented = false ∧ 0 < o.dph_base then o.dph_base :: availablePrices os
    else availablePrices os

/-- The comprehension building `verified_available_prices`. -/
def verifiedAvailablePrices : List Offer → List ℚ
  | [] => []
  | o :: os =>
    if o.verification = Verification.verified ∧ o.rented = false ∧ 0 < o.dph_base then
      o.dph_base :: verifiedAvailablePrices os
    else verifiedAvailablePrices os

/-- The comprehension building `unverified_available_prices` (the filter to
`unverified_offers` fused with the availability filter, preserving order). -/
def unverifiedAvailablePrices : List Offer → List ℚ
  | [] => []
  | o :: os =>
    if (o.verification = Verification.unverified ∨ o.verification = Verification.deverified)
        ∧ o.rented = false ∧ 0 < o.dph_base then
      o.dph_base :: unverifiedAvailablePrices os
    else unverifiedAvailablePrices os

/-- `len(verified_offers)`. -/
def verifiedCount : List Offer → ℕ
  | [] => 0
  | o :: os =>
    (if o.verification = Verification.verified then 1 else 0) + verifiedCount os

/-- `len(unverified_offers)`. -/
def unverifiedCount : List Offer → ℕ
  | [] => 0
  | o :: os =>
    (if o.verification = Verification.unverified ∨ o.verification = Verification.deverified
     then 1 else 0) + unverifiedCount os

/-- The comprehension building `reliabilities`. -/
def positiveReliabilities : List Offer → List ℚ
  | [] => []
  | o :: os =>
    if 0 < o.reliability2 then o.reliability2 :: positiveReliabilities os
    else positiveReliabilities os

/-- Python's `min` over a list; the source only applies it to non-empty
lists, so the value on `[]` (where Python would raise) is irrelevant. -/
def pyMin : List ℚ → ℚ
  | [] => 0
  | x :: xs => xs.foldl min x

/-- `avg_reliability`: mean of the positive reliabilities rounded to 2
decimal places, `0.0` when there are none. -/
def avgReliability (offers : List Offer) : ℚ :=
  let rs := positiveReliabilities offers
  if rs = [] then 0 else round2 (rs.sum / (rs.length : ℚ))

/-- `min_verified_price`: rounded minimum of the verified available prices,
absent when there are none. -/
def minVerifiedPrice (offers : List Offer) : Option ℚ :=
  let vs := verifiedAvailablePrices offers
  if vs = [] then none else some (round4 (pyMin vs))

/-- The (average, median, minimum) statistics `get_market_data` computes for
one eligible-price population: the list is sorted in place, the average is
`round(sum/len, 4)`, the minimum `round(min, 4)` and the median the element
at index `len // 2` of the sorted list, rounded to 4 decimal places.  An
empty population yields three absent statistics. -/
def priceStats (l : List ℚ) : Option ℚ × Option ℚ × Option ℚ :=
  if l = [] then (none, none, none)
  else
    let s := List.insertionSort (· ≤ ·) l
    (some (round4 (s.sum / (s.length : ℚ))),
     some (round4 (s.getD (s.length / 2) 0)),
     some (round4 (pyMin s)))

/-- The pure core of `get_market_data`: from the offer list returned by the
market search to the `MarketData` record.  An empty offer list takes the
early return `MarketData(None, None, None, 0, 0, 0.0, None)` with the
dataclass defaults for the unverified fields. -/
def buildSnapshot (offers : List Offer) : MarketData :=
  if offers = [] then
    { avg_price := none, median_price := none, min_price := none,
      available_count := 0, verified_count := 0, avg_reliability := 0,
      min_verified_price := none, unverified_count := 0,
      unverified_avg_price := none, unverified_median_price := none,
      unverified_min_price := none }
  else
    let us := priceStats (unverifiedAvailablePrices offers)
    let os := priceStats (availablePrices offers)
    { avg_price := os.1, median_price := os.2.1, min_price := os.2.2,
      available_count := offers.length,
      verified_count := verifiedCount offers,
      avg_reliability := avgReliability offers,
      min_verified_price := minVerifiedPrice offers,
      unverified_count := unverifiedCount offers,
      unverified_avg_price := us.1,
      unverified_median_price := us.2.1,
      unverified_min_price := us.2.2 }

/-- `_clamp_price`: clamp into the configured bounds and round to 4 decimal
places. -/
def clampPrice (cfg : PricingConfig) (price : ℚ) : ℚ :=
  round4 (max cfg.base_price (min price cfg.max_price))

/-- `_price_for_rented_machine`: hold the current price. -/
def priceForRentedMachine (current : ℚ) : PriceDecision :=
  { new_price := current, action := PriceAction.HOLD,
    reason := "Machine is RENTED - holding current price" }

/-- Line 288: `reference_min = market.min_verified_price if (machine.verified
and market.min_verified_price) else market.min_price` with Python truthiness. -/
def referenceMin (machine : Machine) (market : MarketData) : Option ℚ :=
  if machine.verified = true ∧ truthy market.min_verified_price then
    market.min_verified_price
  else market.min_price

/-- `_price_for_idle_machine`.  Returns `none` exactly where the Python code
would raise a `TypeError`: comparing `current` with a `None` reference
minimum (only reachable when `current <= median` and `min_price` is absent,
which `get_market_data` never produces together with a truthy median). -/
def priceForIdleMachine (cfg : PricingConfig) (current : ℚ) (market : MarketData)
    (machine : Machine) : Option PriceDecision :=
  if truthy market.median_price then
    let med := market.median_price.getD 0
    if med < current then
      let multiplier : ℚ := if machine.verified then 95 / 100 else 90 / 100
      some { new_price := clampPrice cfg (med * multiplier), action := PriceAction.DECREASE,
             reason := "Machine IDLE + priced above median - dropping to " ++
               toString (if machine.verified then (95 : ℕ) else 90) ++ "% of median" }
    else
      match referenceMin machine market with
      | none => none
      | some rmin =>
        if rmin < current then
          let target := rmin * (92 / 100)
          if current * (5 / 100) < |target - current| then
            some { new_price := clampPrice cfg target, action := PriceAction.DECREASE,
                   reason := "Machine IDLE - pricing near market minimum to attract customers" }
          else
            some { new_price := current, action := PriceAction.HOLD,
                   reason := "Machine IDLE but already at/below market minimum - holding price" }
        else
          some { new_price := current, action := PriceAction.HOLD,
                 reason := "Machine IDLE but already at/below market minimum - holding price" }
  else
    some { new_price := clampPrice cfg (current * (9 / 10)), action := PriceAction.DECREASE,
           reason := "Machine IDLE + no market data - decreasing to attract customers" }

/-- `calculate_price`: the decision engine (logging omitted; it does not
affect the returned decision). -/
def calculatePrice (cfg : PricingConfig) (machine : Machine) (market : MarketData) :
    Option PriceDecision :=
  if machine.is_rented then some (priceForRentedMachine machine.current_price)
  else priceForIdleMachine cfg machine.current_price market machine

/-- The configuration assembled from the argparse defaults in `main`. -/
def defaultConfig : PricingConfig :=
  { interval_minutes := 10, base_price := 1 / 2, max_price := 2,
    high_demand_threshold := 80, low_demand_threshold := 30,
    target_gpu := "RTX_5090", target_num_gpus := 1, test_mode := false }

/-- C1: a rented machine is always held at its current price. -/
theorem rented_always_holds_current_price (cfg : PricingConfig) (machine : Machine)
    (market : MarketData) (h : machine.is_rented = true) :
    calculatePrice cfg machine market =
      some { new_price := machine.current_price, action := PriceAction.HOLD,
             reason := "Machine is RENTED - holding current price" } := by
  simp [calculatePrice, priceForRentedMachine, h]

/-- C1 witness: the rented invariant at a concrete machine, market and
configuration. -/
theorem rented_always_holds_current_price_witness :
    calculatePrice defaultConfig
        { id := 7, gpu_name := "RTX_5090", num_gpus := 1, current_price := 6 / 5,
          is_rented := true, verified := true, reliability := 99 / 100,
          disk_space := 500, inet_down := 800, inet_up := 700 }
        { avg_price := some 1, median_price := some 1, min_price := some 1,
          available_count := 3, verified_count := 2, avg_reliability := 98 / 100,
          min_verified_price := some 1 } =
      some { new_price := 6 / 5, action := PriceAction.HOLD,
             reason := "Machine is RENTED - holding current price" } :=
  rented_always_holds_current_price defaultConfig _ _ rfl

/-- Rounding bracket: if `q * 10000 + 1/2` lies in `[n, n+1)` then
`round4 q = n / 10000`. -/
theorem round4_eq_of {q : ℚ} {n : ℤ} (h1 : (n : ℚ) ≤ q * 10000 + 1 / 2)
    (h2 : q * 10000 + 1 / 2 < (n : ℚ) + 1) : round4 q = (n : ℚ) / 10000 := by
  unfold round4
  rw [round_eq]
  have : ⌊q * 10000 + 1 / 2⌋ = n := by
    rw [Int.floor_eq_iff]
    exact ⟨h1, h2⟩
  rw [this]

/-- `round4` fixes every integer multiple of `1 / 10000`. -/
theorem round4_intCast_div (n : ℤ) : round4 ((n : ℚ) / 10000) = (n : ℚ) / 10000 := by
  unfold round4
  rw [div_mul_cancel₀ _ (by norm_num : (10000 : ℚ) ≠ 0), round_intCast]

/-- `round4` is idempotent. -/
theorem round4_round4 (x : ℚ) : round4 (round4 x) = round4 x :=
  round4_intCast_div (round (x * 10000))

/-- `round4` is monotone. -/
theorem round4_mono {a b : ℚ} (h : a ≤ b) : round4 a ≤ round4 b := by
  unfold round4
  have h2 : round (a * 10000) ≤ round (b * 10000) := by
    rw [round_eq, round_eq]
    exact Int.floor_mono (by linarith)
  have h3 : ((round (a * 10000) : ℤ) : ℚ) ≤ ((round (b * 10000) : ℤ) : ℚ) := by
    exact_mod_cast h2
  linarith

/-- Re-clamping a clamped value changes nothing, for every configuration. -/
theorem clampPrice_idem (cfg : PricingConfig) (x : ℚ) :
    clampPrice cfg (clampPrice cfg x) = clampPrice cfg x := by
  unfold clampPrice
  set f := cfg.base_price with hf
  set c := cfg.max_price with hc
  set y := round4 (max f (min x c)) with hy
  have hyfix : round4 y = y := round4_round4 _
  rcases le_total y c with h1 | h1
  · rw [min_eq_left h1]
    rcases le_total f y with h3 | h3
    · rw [max_eq_right h3, hyfix]
    · rw [max_eq_left h3]
      refine le_antisymm ?_ ?_
      · exact hy ▸ round4_mono (le_max_left f (min x c))
      · calc y = round4 y := hyfix.symm
          _ ≤ round4 f := round4_mono h3
  · rw [min_eq_right h1]
    rcases le_total f c with h3 | h3
    · rw [max_eq_right h3]
      refine le_antisymm ?_ ?_
      · calc round4 c ≤ round4 y := round4_mono h1
          _ = y := hyfix
      · exact hy ▸ round4_mono (max_le h3 (min_le_right x c))
    · have hz : max f (min x c) = f := max_eq_left (le_trans (min_le_right x c) h3)
      rw [max_eq_left h3, hy, hz]

/-- When both bounds are 4-decimal values (fixed points of `round4`) with
floor below ceiling, the clamped price stays inside the bounds. -/
theorem clampPrice_mem (cfg : PricingConfig) (x : ℚ)
    (hf : round4 cfg.base_price = cfg.base_price)
    (hc : round4 cfg.max_price = cfg.max_price)
    (hfc : cfg.base_price ≤ cfg.max_price) :
    cfg.base_price ≤ clampPrice cfg x ∧ clampPrice cfg x ≤ cfg.max_price := by
  unfold clampPrice
  constructor
  · calc cfg.base_price = round4 cfg.base_price := hf.symm
      _ ≤ round4 (max cfg.base_price (min x cfg.max_price)) :=
        round4_mono (le_max_left _ _)
  · calc round4 (max cfg.base_price (min x cfg.max_price))
        ≤ round4 cfg.max_price :=
          round4_mono (max_le hfc (min_le_right _ _))
      _ = cfg.max_price := hc

/-- Case analysis on the idle-machine branch: every decision it returns is
either a HOLD of the unmodified current price or a DECREASE whose price is
the clamp of some target. -/
theorem priceForIdleMachine_cases (cfg : PricingConfig) (current : ℚ)
    (market : MarketData) (machine : Machine) (d : PriceDecision)
    (h : priceForIdleMachine cfg current market machine = some d) :
    (d.action = PriceAction.HOLD ∧ d.new_price = current) ∨
      (d.action = PriceAction.DECREASE ∧ ∃ t, d.new_price = clampPrice cfg t) := by
  unfold priceForIdleMachine at h
  by_cases h1 : truthy market.median_price
  · rw [if_pos h1] at h
    by_cases h2 : market.median_price.getD 0 < current
    · rw [if_pos h2] at h
      injection h with h
      subst h
      exact Or.inr ⟨rfl, _, rfl⟩
    · rw [if_neg h2] at h
      rcases h3 : referenceMin machine market with _ | rmin
      · rw [h3] at h
        exact absurd h (by simp)
      · rw [h3] at h
        dsimp only at h
        by_cases h4 : rmin < current
        · rw [if_pos h4] at h
          by_cases h5 : current * (5 / 100) < |rmin * (92 / 100) - current|
          · rw [if_pos h5] at h
            injection h with h
            subst h
            exact Or.inr ⟨rfl, _, rfl⟩
          · rw [if_neg h5] at h
            injection h with h
            subst h
            exact Or.inl ⟨rfl, rfl⟩
        · rw [if_neg h4] at h
          injection h with h
          subst h
          exact Or.inl ⟨rfl, rfl⟩
  · rw [if_neg h1] at h
    injection h with h
    subst h
    exact Or.inr ⟨rfl, _, rfl⟩

/-- Case analysis on the whole engine: every decision is a HOLD of the
machine's unmodified current price or a DECREASE to a clamped target. -/
theorem calculatePrice_cases (cfg : PricingConfig) (machine : Machine)
    (market : MarketData) (d : PriceDecision)
    (h : calculatePrice cfg machine market = some d) :
    (d.action = PriceAction.HOLD ∧ d.new_price = machine.current_price) ∨
      (d.action = PriceAction.DECREASE ∧ ∃ t, d.new_price = clampPrice cfg t) := by
  unfold calculatePrice at h
  by_cases h1 : machine.is_rented
  · rw [if_pos h1] at h
    injection h with h
    subst h
    exact Or.inl ⟨rfl, rfl⟩
  · rw [if_neg h1] at h
    exact priceForIdleMachine_cases cfg machine.current_price market machine d h

/-- C4: an idle machine with an absent overall median is decreased to the
clamp of 90% of its current price (the no-market-data rule). -/
theorem idle_no_median_decreases_ten_percent (cfg : PricingConfig)
    (machine : Machine) (market : MarketData)
    (hrent : machine.is_rented = false) (hmed : market.median_price = none) :
    calculatePrice cfg machine market =
      some { new_price := clampPrice cfg (machine.current_price * (9 / 10)),
             action := PriceAction.DECREASE,
             reason := "Machine IDLE + no market data - decreasing to attract customers" } := by
  unfold calculatePrice priceForIdleMachine
  rw [if_neg (by simp [hrent]), if_neg (by simp [hmed])]

/-- C4 witness: the no-market-data rule at a concrete idle machine and an
all-absent snapshot. -/
theorem idle_no_median_decreases_ten_percent_witness :
    calculatePrice defaultConfig
        { id := 3, gpu_name := "RTX_5090", num_gpus := 1, current_price := 1,
          is_rented := false, verified := false, reliability := 97 / 100,
          disk_space := 250, inet_down := 400, inet_up := 300 }
        { avg_price := none, median_price := none, min_price := none,
          available_count := 0, verified_count := 0, avg_reliability := 0,
          min_verified_price := none } =
      some { new_price := clampPrice defaultConfig (1 * (9 / 10)),
             action := PriceAction.DECREASE,
             reason := "Machine IDLE + no market data - decreasing to attract customers" } :=
  idle_no_median_decreases_ten_percent defaultConfig _ _ rfl rfl

/-- `round4` fixes any rational equal to an integer multiple of `1 / 10000`. -/
theorem round4_fix {x : ℚ} (n : ℤ) (hx : x = (n : ℚ) / 10000) : round4 x = x := by
  rw [hx, round4_intCast_div]

/-- C2 amended: an idle machine priced strictly above a present and nonzero
overall median is decreased to the clamp of median times 0.95 (verified) or
0.90 (unverified). -/
theorem idle_above_nonzero_median_decreases (cfg : PricingConfig) (machine : Machine)
    (market : MarketData) (med : ℚ)
    (hrent : machine.is_rented = false) (hmed : market.median_price = some med)
    (hne : med ≠ 0) (hgt : med < machine.current_price) :
    calculatePrice cfg machine market =
      some { new_price :=
               clampPrice cfg (med * (if machine.verified then 95 / 100 else 90 / 100)),
             action := PriceAction.DECREASE,
             reason := "Machine IDLE + priced above median - dropping to " ++
               toString (if machine.verified then (95 : ℕ) else 90) ++ "% of median" } := by
  have ht : truthy market.median_price := by rw [hmed]; exact hne
  unfold calculatePrice priceForIdleMachine
  rw [if_neg (by simp [hrent]), if_pos ht, hmed]
  dsimp only [Option.getD]
  rw [if_pos hgt]

/-- Concrete machine refuting C2 as stated: idle, unverified, current price 1.5. -/
def machineC2 : Machine :=
  { id := 11, gpu_name := "RTX_5090", num_gpus := 1, current_price := 3 / 2,
    is_rented := false, verified := false, reliability := 96 / 100,
    disk_space := 100, inet_down := 100, inet_up := 100 }

/-- Snapshot refuting C2 as stated: the overall median is present but 0.0
(as `get_market_data` produces when every eligible price rounds to 0). -/
def marketC2 : MarketData :=
  { avg_price := some 0, median_price := some 0, min_price := some 0,
    available_count := 2, verified_count := 0, avg_reliability := 96 / 100,
    min_verified_price := none, unverified_count := 2,
    unverified_avg_price := some 0, unverified_median_price := some 0,
    unverified_min_price := some 0 }

/-- C2 counterexample: with a present overall median of 0.0 and current
price 1.5 > 0, the engine does not decrease to `clamp(median × 0.90)`; it
takes the no-market-data branch and returns `clamp(1.5 × 0.9) = 1.35`. -/
theorem above_present_median_claim_fails :
    marketC2.median_price = some 0 ∧ (0 : ℚ) < machineC2.current_price ∧
      calculatePrice defaultConfig machineC2 marketC2 =
        some { new_price := 27 / 20, action := PriceAction.DECREASE,
               reason := "Machine IDLE + no market data - decreasing to attract customers" } ∧
      (27 / 20 : ℚ) ≠ clampPrice defaultConfig (0 * (90 / 100)) := by
  have hclamp : clampPrice defaultConfig (3 / 2 * (9 / 10)) = 27 / 20 := by
    unfold clampPrice defaultConfig
    rw [show ((3 : ℚ) / 2 * (9 / 10)) = 27 / 20 by norm_num]
    rw [min_eq_left (by norm_num), max_eq_right (by norm_num)]
    exact round4_fix 13500 (by norm_num)
  have hclamp0 : clampPrice defaultConfig (0 * (90 / 100)) = 1 / 2 := by
    unfold clampPrice defaultConfig
    rw [show ((0 : ℚ) * (90 / 100)) = 0 by norm_num]
    rw [min_eq_left (by norm_num), max_eq_left (by norm_num)]
    exact round4_fix 5000 (by norm_num)
  refine ⟨rfl, by norm_num [machineC2], ?_, by rw [hclamp0]; norm_num⟩
  unfold calculatePrice
  rw [if_neg (by simp [machineC2])]
  unfold priceForIdleMachine
  rw [if_neg (by simp [marketC2])]
  rw [show machineC2.current_price = 3 / 2 from rfl, hclamp]

/-- C2 witness: the amended rule at a concrete unverified idle machine with
current price 2 above a nonzero median 1. -/
theorem idle_above_nonzero_median_decreases_witness :
    calculatePrice defaultConfig
        { id := 12, gpu_name := "RTX_5090", num_gpus := 1, current_price := 2,
          is_rented := false, verified := false, reliability := 96 / 100,
          disk_space := 100, inet_down := 100, inet_up := 100 }
        { avg_price := some 1, median_price := some 1, min_price := some (4 / 5),
          available_count := 4, verified_count := 1, avg_reliability := 97 / 100,
          min_verified_price := some 1 } =
      some { new_price := clampPrice defaultConfig (1 * (90 / 100)),
             action := PriceAction.DECREASE,
             reason := "Machine IDLE + priced above median - dropping to " ++
               toString (90 : ℕ) ++ "% of median" } := by
  have := idle_above_nonzero_median_decreases defaultConfig
      { id := 12, gpu_name := "RTX_5090", num_gpus := 1, current_price := 2,
        is_rented := false, verified := false, reliability := 96 / 100,
        disk_space := 100, inet_down := 100, inet_up := 100 }
      { avg_price := some 1, median_price := some 1, min_price := some (4 / 5),
        available_count := 4, verified_count := 1, avg_reliability := 97 / 100,
        min_verified_price := some 1 }
      1 rfl rfl (by norm_num) (by norm_num)
  simpa using this

/-- C3 amended: for an idle machine below a present nonzero overall median
but strictly above the reference minimum, the 5% dead-band can never
suppress the move — `current > reference_min` already forces
`|reference_min × 0.92 − current| > current × 0.05` — so the engine always
returns DECREASE to the clamp of `reference_min × 0.92`. -/
theorem idle_between_min_and_median_decreases (cfg : PricingConfig) (machine : Machine)
    (market : MarketData) (med r : ℚ)
    (hrent : machine.is_rented = false)
    (hmed : market.median_price = some med) (hne : med ≠ 0)
    (hle : machine.current_price ≤ med)
    (href : referenceMin machine market = some r)
    (hgt : r < machine.current_price) :
    machine.current_price * (5 / 100) < |r * (92 / 100) - machine.current_price| ∧
      calculatePrice cfg machine market =
        some { new_price := clampPrice cfg (r * (92 / 100)),
               action := PriceAction.DECREASE,
               reason := "Machine IDLE - pricing near market minimum to attract customers" } := by
  set c := machine.current_price with hc
  have key : c * (5 / 100) < |r * (92 / 100) - c| := by
    rcases lt_trichotomy c 0 with h0 | h0 | h0
    · exact lt_of_lt_of_le (by nlinarith) (abs_nonneg _)
    · rw [h0] at hgt ⊢
      rw [zero_mul, sub_zero]
      rw [abs_pos]
      nlinarith
    · have hneg : r * (92 / 100) - c < 0 := by nlinarith
      rw [abs_of_neg hneg]
      nlinarith
  refine ⟨key, ?_⟩
  have ht : truthy market.median_price := by rw [hmed]; exact hne
  unfold calculatePrice priceForIdleMachine
  rw [if_neg (by simp [hrent]), if_pos ht, hmed]
  dsimp only [Option.getD]
  rw [if_neg (not_lt.mpr hle), href]
  dsimp only
  rw [if_pos hgt, if_pos key]

/-- Concrete machine refuting C3 as stated: idle, unverified, current price 0. -/
def machineC3 : Machine :=
  { id := 21, gpu_name := "RTX_5090", num_gpus := 1, current_price := 0,
    is_rented := false, verified := false, reliability := 96 / 100,
    disk_space := 100, inet_down := 100, inet_up := 100 }

/-- Snapshot refuting C3 as stated: present overall median 0.0, overall
minimum −1. -/
def marketC3 : MarketData :=
  { avg_price := some 0, median_price := some 0, min_price := some (-1),
    available_count := 2, verified_count := 0, avg_reliability := 96 / 100,
    min_verified_price := none }

/-- Configuration with a negative floor, reachable via `--base-price`. -/
def configC3 : PricingConfig :=
  { interval_minutes := 10, base_price := -2, max_price := 2,
    high_demand_threshold := 80, low_demand_threshold := 30,
    target_gpu := "RTX_5090", target_num_gpus := 1, test_mode := false }

/-- C3 counterexample: all hypotheses of the claim hold — present overall
median (0.0), current ≤ median, current strictly above the reference
minimum −1, and a move exceeding 5% of current — yet the engine does not
return `clamp(reference_min × 0.92) = −0.92`; it takes the no-market-data
branch and returns 0. -/
theorem dead_band_claim_fails :
    marketC3.median_price = some 0 ∧ machineC3.current_price ≤ 0 ∧
      referenceMin machineC3 marketC3 = some (-1) ∧
      (-1 : ℚ) < machineC3.current_price ∧
      machineC3.current_price * (5 / 100) <
        |(-1 : ℚ) * (92 / 100) - machineC3.current_price| ∧
      calculatePrice configC3 machineC3 marketC3 =
        some { new_price := 0, action := PriceAction.DECREASE,
               reason := "Machine IDLE + no market data - decreasing to attract customers" } ∧
      (0 : ℚ) ≠ clampPrice configC3 ((-1) * (92 / 100)) := by
  have hclamp0 : clampPrice configC3 (0 * (9 / 10)) = 0 := by
    unfold clampPrice configC3
    rw [show ((0 : ℚ) * (9 / 10)) = 0 by norm_num]
    rw [min_eq_left (by norm_num), max_eq_right (by norm_num)]
    exact round4_fix 0 (by norm_num)
  have hclampT : clampPrice configC3 ((-1) * (92 / 100)) = -92 / 100 := by
    unfold clampPrice configC3
    rw [show ((-1 : ℚ) * (92 / 100)) = -92 / 100 by norm_num]
    rw [min_eq_left (by norm_num), max_eq_right (by norm_num)]
    exact round4_fix (-9200) (by norm_num)
  refine ⟨rfl, le_refl 0, by simp [referenceMin, machineC3, marketC3], by norm_num [machineC3],
    by rw [show machineC3.current_price = 0 from rfl]; rw [zero_mul, sub_zero]; norm_num, ?_,
    by rw [hclampT]; norm_num⟩
  unfold calculatePrice
  rw [if_neg (by simp [machineC3])]
  unfold priceForIdleMachine
  rw [if_neg (by simp [marketC3])]
  rw [show machineC3.current_price = 0 from rfl, hclamp0]

/-- C3 witness: the amended rule at a concrete unverified idle machine with
current price 1, median 1 and overall minimum 0.5. -/
theorem idle_between_min_and_median_decreases_witness :
    (1 : ℚ) * (5 / 100) < |(1 / 2 : ℚ) * (92 / 100) - 1| ∧
      calculatePrice defaultConfig
          { id := 22, gpu_name := "RTX_5090", num_gpus := 1, current_price := 1,
            is_rented := false, verified := false, reliability := 96 / 100,
            disk_space := 100, inet_down := 100, inet_up := 100 }
          { avg_price := some 1, median_price := some 1, min_price := some (1 / 2),
            available_count := 3, verified_count := 0, avg_reliability := 97 / 100,
            min_verified_price := none } =
        some { new_price := clampPrice defaultConfig ((1 / 2) * (92 / 100)),
               action := PriceAction.DECREASE,
               reason := "Machine IDLE - pricing near market minimum to attract customers" } := by
  have := idle_between_min_and_median_decreases defaultConfig
      { id := 22, gpu_name := "RTX_5090", num_gpus := 1, current_price := 1,
        is_rented := false, verified := false, reliability := 96 / 100,
        disk_space := 100, inet_down := 100, inet_up := 100 }
      { avg_price := some 1, median_price := some 1, min_price := some (1 / 2),
        available_count := 3, verified_count := 0, avg_reliability := 97 / 100,
        min_verified_price := none }
      1 (1 / 2) rfl rfl (by norm_num) (by norm_num) (by simp [referenceMin]) (by norm_num)
  simpa using this

/-- Reference minimum as claim C5 and the spec glossary describe it: the
minimum of the peer population matching the machine's own verification
tier, falling back to the overall minimum when that tier-specific minimum
is absent.  This follows the claim's words, for comparison with the
source's `referenceMin`. -/
def referenceMinClaimed (machine : Machine) (market : MarketData) : Option ℚ :=
  if machine.verified = true then
    match market.min_verified_price with
    | some v => some v
    | none => market.min_price
  else
    match market.unverified_min_price with
    | some v => some v
    | none => market.min_price

/-- C5 amended: the reference minimum is the verified-available minimum for
a verified machine when that minimum is present and nonzero, and the
overall-available minimum in every other case — whether the machine is
unverified, or verified with an absent or zero verified minimum; the
idle-machine rule is insensitive to the snapshot's unverified minimum
field. -/
theorem reference_min_ignores_unverified_tier (machine : Machine) (market : MarketData) :
    (machine.verified = true → truthy market.min_verified_price →
       referenceMin machine market = market.min_verified_price) ∧
      (¬ (machine.verified = true ∧ truthy market.min_verified_price) →
        referenceMin machine market = market.min_price) ∧
      (∀ cfg current u,
        priceForIdleMachine cfg current { market with unverified_min_price := u } machine =
          priceForIdleMachine cfg current market machine) := by
  refine ⟨?_, ?_, ?_⟩
  · intro hv ht
    unfold referenceMin
    rw [if_pos ⟨hv, ht⟩]
  · intro hn
    unfold referenceMin
    rw [if_neg hn]
  · intro cfg current u
    cases market
    rfl

/-- Concrete machine refuting C5 as stated: idle, unverified, current price 1. -/
def machineC5 : Machine :=
  { id := 31, gpu_name := "RTX_5090", num_gpus := 1, current_price := 1,
    is_rented := false, verified := false, reliability := 96 / 100,
    disk_space := 100, inet_down := 100, inet_up := 100 }

/-- Snapshot refuting C5 as stated: the unverified-tier minimum (2) is
present and differs from the overall minimum (0.5). -/
def marketC5 : MarketData :=
  { avg_price := some 1, median_price := some 1, min_price := some (1 / 2),
    available_count := 4, verified_count := 1, avg_reliability := 97 / 100,
    min_verified_price := none, unverified_count := 3,
    unverified_avg_price := some 2, unverified_median_price := some 2,
    unverified_min_price := some 2 }

/-- C5 counterexample: for an unverified idle machine the claimed reference
minimum is the present unverified-tier minimum 2 — under which, with
current price 1 ≤ 2, rule (d) would HOLD — but the code uses the overall
minimum 0.5 and DECREASEs to `clamp(0.5 × 0.92) = 0.5`. -/
theorem tier_reference_min_claim_fails :
    referenceMinClaimed machineC5 marketC5 = some 2 ∧
      referenceMin machineC5 marketC5 = some (1 / 2) ∧
      machineC5.current_price ≤ 2 ∧
      calculatePrice defaultConfig machineC5 marketC5 =
        some { new_price := 1 / 2, action := PriceAction.DECREASE,
               reason := "Machine IDLE - pricing near market minimum to attract customers" } := by
  have hdb : machineC5.current_price * (5 / 100) <
      |(1 / 2 : ℚ) * (92 / 100) - machineC5.current_price| := by
    rw [show machineC5.current_price = 1 from rfl]
    rw [abs_of_neg (by norm_num)]
    norm_num
  have hcl : clampPrice defaultConfig ((1 / 2) * (92 / 100)) = 1 / 2 := by
    unfold clampPrice defaultConfig
    rw [show ((1 : ℚ) / 2 * (92 / 100)) = 46 / 100 by norm_num]
    rw [min_eq_left (by norm_num), max_eq_left (by norm_num)]
    exact round4_fix 5000 (by norm_num)
  refine ⟨rfl, by simp [referenceMin, machineC5, marketC5], by norm_num [machineC5], ?_⟩
  unfold calculatePrice
  rw [if_neg (by simp [machineC5])]
  unfold priceForIdleMachine
  rw [if_pos (by simp [marketC5])]
  rw [show marketC5.median_price = some 1 from rfl]
  dsimp only [Option.getD]
  rw [if_neg (by norm_num [machineC5])]
  rw [show referenceMin machineC5 marketC5 = some (1 / 2) from
    by simp [referenceMin, machineC5, marketC5]]
  dsimp only
  rw [if_pos (by norm_num [machineC5] : (1 : ℚ) / 2 < machineC5.current_price)]
  rw [if_pos hdb, hcl]

/-- Snapshot used by the C5 witness. -/
def marketC5W : MarketData :=
  { avg_price := some 1, median_price := some 1, min_price := some (3 / 5),
    available_count := 4, verified_count := 1, avg_reliability := 97 / 100,
    min_verified_price := some (4 / 5), unverified_count := 3,
    unverified_avg_price := some 1, unverified_median_price := some 1,
    unverified_min_price := some (3 / 5) }

/-- C5 witness: the amended characterisation at a concrete verified machine
(truthy verified minimum), an unverified machine, and a verified machine
over a snapshot whose verified minimum is absent, all over concrete
snapshots. -/
theorem reference_min_ignores_unverified_tier_witness :
    referenceMin
        { id := 32, gpu_name := "RTX_5090", num_gpus := 1, current_price := 1,
          is_rented := false, verified := true, reliability := 99 / 100,
          disk_space := 100, inet_down := 100, inet_up := 100 }
        marketC5W = marketC5W.min_verified_price ∧
      referenceMin
        { id := 33, gpu_name := "RTX_5090", num_gpus := 1, current_price := 1,
          is_rented := false, verified := false, reliability := 92 / 100,
          disk_space := 100, inet_down := 100, inet_up := 100 }
        marketC5W = marketC5W.min_price ∧
      referenceMin
        { id := 32, gpu_name := "RTX_5090", num_gpus := 1, current_price := 1,
          is_rented := false, verified := true, reliability := 99 / 100,
          disk_space := 100, inet_down := 100, inet_up := 100 }
        { marketC5W with min_verified_price := none } =
        MarketData.min_price { marketC5W with min_verified_price := none } ∧
      priceForIdleMachine defaultConfig 1 { marketC5W with unverified_min_price := some 7 }
          { id := 33, gpu_name := "RTX_5090", num_gpus := 1, current_price := 1,
            is_rented := false, verified := false, reliability := 92 / 100,
            disk_space := 100, inet_down := 100, inet_up := 100 } =
        priceForIdleMachine defaultConfig 1 marketC5W
          { id := 33, gpu_name := "RTX_5090", num_gpus := 1, current_price := 1,
            is_rented := false, verified := false, reliability := 92 / 100,
            disk_space := 100, inet_down := 100, inet_up := 100 } :=
  ⟨(reference_min_ignores_unverified_tier _ marketC5W).1 rfl (by norm_num [marketC5W]),
   (reference_min_ignores_unverified_tier _ marketC5W).2.1 (by simp),
   (reference_min_ignores_unverified_tier _ { marketC5W with min_verified_price := none }).2.1
     (by simp [marketC5W]),
   (reference_min_ignores_unverified_tier _ marketC5W).2.2 defaultConfig 1 (some 7)⟩

/-- C7 amended: clamping is idempotent for every configuration and price;
the clamped price lies inside `[floor, ceiling]` whenever both bounds are
4-decimal values with floor at most ceiling; every non-HOLD decision
returns a clamp fixed point, and every HOLD decision returns the machine's
unmodified current price. -/
theorem clamp_idem_bounds_application :
    (∀ cfg : PricingConfig, ∀ x : ℚ,
       clampPrice cfg (clampPrice cfg x) = clampPrice cfg x) ∧
      (∀ cfg : PricingConfig, ∀ x : ℚ,
        round4 cfg.base_price = cfg.base_price → round4 cfg.max_price = cfg.max_price →
        cfg.base_price ≤ cfg.max_price →
        cfg.base_price ≤ clampPrice cfg x ∧ clampPrice cfg x ≤ cfg.max_price) ∧
      (∀ (cfg : PricingConfig) (machine : Machine) (market : MarketData)
          (d : PriceDecision), calculatePrice cfg machine market = some d →
        (d.action ≠ PriceAction.HOLD → d.new_price = clampPrice cfg d.new_price) ∧
          (d.action = PriceAction.HOLD → d.new_price = machine.current_price)) := by
  refine ⟨clampPrice_idem, fun cfg x hf hc hfc => clampPrice_mem cfg x hf hc hfc, ?_⟩
  intro cfg machine market d h
  rcases calculatePrice_cases cfg machine market d h with ⟨ha, hp⟩ | ⟨ha, t, hp⟩
  · exact ⟨fun hne => absurd ha hne, fun _ => hp⟩
  · constructor
    · intro _
      rw [hp, clampPrice_idem]
    · intro hh
      rw [ha] at hh
      exact absurd hh (by simp)

/-- Configuration refuting the bounds part of C7 as stated: the floor
0.00003 is not a 4-decimal value (reachable via `--base-price 0.00003`). -/
def configC7 : PricingConfig :=
  { interval_minutes := 10, base_price := 3 / 100000, max_price := 2,
    high_demand_threshold := 80, low_demand_threshold := 30,
    target_gpu := "RTX_5090", target_num_gpus := 1, test_mode := false }

/-- C7 counterexample: with floor 0.00003, `clamp(0)` rounds the clamped
value 0.00003 down to 0, which lies strictly below the floor — so
`clamp(x) ∈ [floor, ceiling]` fails for this configuration. -/
theorem clamp_bounds_claim_fails :
    clampPrice configC7 0 = 0 ∧ ¬ (configC7.base_price ≤ clampPrice configC7 0) := by
  have h : clampPrice configC7 0 = 0 := by
    unfold clampPrice configC7
    rw [min_eq_left (by norm_num), max_eq_left (by norm_num)]
    have := @round4_eq_of (3 / 100000) 0 (by norm_num) (by norm_num)
    simpa using this
  exact ⟨h, by rw [h]; norm_num [configC7]⟩

/-- C7 witness: idempotence, bounds and the per-decision application at
concrete inputs (a rented machine's HOLD decision). -/
theorem clamp_idem_bounds_application_witness :
    clampPrice defaultConfig (clampPrice defaultConfig 3) = clampPrice defaultConfig 3 ∧
      (defaultConfig.base_price ≤ clampPrice defaultConfig 3 ∧
        clampPrice defaultConfig 3 ≤ defaultConfig.max_price) ∧
      ({ new_price := 1, action := PriceAction.HOLD,
         reason := "Machine is RENTED - holding current price" } : PriceDecision).new_price =
        Machine.current_price
          { id := 41, gpu_name := "RTX_5090", num_gpus := 1, current_price := 1,
            is_rented := true, verified := true, reliability := 99 / 100,
            disk_space := 100, inet_down := 100, inet_up := 100 } :=
  ⟨clamp_idem_bounds_application.1 defaultConfig 3,
   clamp_idem_bounds_application.2.1 defaultConfig 3
     (round4_fix 5000 (by norm_num [defaultConfig])) (round4_fix 20000 (by norm_num [defaultConfig]))
     (by norm_num [defaultConfig]),
   (clamp_idem_bounds_application.2.2 defaultConfig
     { id := 41, gpu_name := "RTX_5090", num_gpus := 1, current_price := 1,
       is_rented := true, verified := true, reliability := 99 / 100,
       disk_space := 100, inet_down := 100, inet_up := 100 }
     { avg_price := none, median_price := none, min_price := none,
       available_count := 0, verified_count := 0, avg_reliability := 0,
       min_verified_price := none }
     _ rfl).2 rfl⟩

/-- C9: the decision engine only ever returns HOLD or DECREASE; no branch
produces INCREASE. -/
theorem engine_never_increases (cfg : PricingConfig) (machine : Machine)
    (market : MarketData) (d : PriceDecision)
    (h : calculatePrice cfg machine market = some d) :
    d.action = PriceAction.HOLD ∨ d.action = PriceAction.DECREASE := by
  rcases calculatePrice_cases cfg machine market d h with ⟨ha, _⟩ | ⟨ha, _⟩
  · exact Or.inl ha
  · exact Or.inr ha

/-- C9 witness: the HOLD-or-DECREASE invariant at a concrete idle machine
with no market data. -/
theorem engine_never_increases_witness :
    ({ new_price := clampPrice defaultConfig (1 * (9 / 10)),
       action := PriceAction.DECREASE,
       reason := "Machine IDLE + no market data - decreasing to attract customers" } :
        PriceDecision).action = PriceAction.HOLD ∨
      ({ new_price := clampPrice defaultConfig (1 * (9 / 10)),
         action := PriceAction.DECREASE,
         reason := "Machine IDLE + no market data - decreasing to attract customers" } :
          PriceDecision).action = PriceAction.DECREASE :=
  engine_never_increases defaultConfig
    { id := 42, gpu_name := "RTX_5090", num_gpus := 1, current_price := 1,
      is_rented := false, verified := false, reliability := 95 / 100,
      disk_space := 100, inet_down := 100, inet_up := 100 }
    { avg_price := none, median_price := none, min_price := none,
      available_count := 0, verified_count := 0, avg_reliability := 0,
      min_verified_price := none }
    _ rfl

/-- Projection of the snapshot's overall median when the overall
eligible-price population is non-empty. -/
theorem buildSnapshot_median_of_ne (offers : List Offer)
    (h : availablePrices offers ≠ []) :
    (buildSnapshot offers).median_price =
      some (round4 ((List.insertionSort (· ≤ ·) (availablePrices offers)).getD
        ((List.insertionSort (· ≤ ·) (availablePrices offers)).length / 2) 0)) := by
  have ho : offers ≠ [] := by
    intro he
    apply h
    rw [he]
    rfl
  unfold buildSnapshot
  rw [if_neg ho]
  dsimp only
  unfold priceStats
  rw [if_neg h]

/-- Projection of the snapshot's unverified median when the unverified
eligible-price population is non-empty. -/
theorem buildSnapshot_unverified_median_of_ne (offers : List Offer)
    (h : unverifiedAvailablePrices offers ≠ []) :
    (buildSnapshot offers).unverified_median_price =
      some (round4 ((List.insertionSort (· ≤ ·) (unverifiedAvailablePrices offers)).getD
        ((List.insertionSort (· ≤ ·) (unverifiedAvailablePrices offers)).length / 2) 0)) := by
  have ho : offers ≠ [] := by
    intro he
    apply h
    rw [he]
    rfl
  unfold buildSnapshot
  rw [if_neg ho]
  dsimp only
  unfold priceStats
  rw [if_neg h]

/-- C6: for each non-empty eligible-price population (overall and
unverified), the snapshot's median is the element at zero-based index
`floor(n/2)` of the ascending-sorted price list, rounded to 4 decimal
places — the upper of the two middle elements for even n, never their
arithmetic mean. -/
theorem median_is_sorted_upper_middle (offers : List Offer) :
    (∀ l : List ℚ, l.Perm (availablePrices offers) → l.Sorted (· ≤ ·) →
       availablePrices offers ≠ [] →
       (buildSnapshot offers).median_price = some (round4 (l.getD (l.length / 2) 0))) ∧
      (∀ l : List ℚ, l.Perm (unverifiedAvailablePrices offers) → l.Sorted (· ≤ ·) →
        unverifiedAvailablePrices offers ≠ [] →
        (buildSnapshot offers).unverified_median_price =
          some (round4 (l.getD (l.length / 2) 0))) := by
  constructor
  · intro l hp hs hne
    have hl : l = List.insertionSort (· ≤ ·) (availablePrices offers) :=
      List.eq_of_perm_of_sorted (hp.trans (List.perm_insertionSort _ _).symm) hs
        (List.sorted_insertionSort _ _)
    rw [buildSnapshot_median_of_ne offers hne, hl]
  · intro l hp hs hne
    have hl : l = List.insertionSort (· ≤ ·) (unverifiedAvailablePrices offers) :=
      List.eq_of_perm_of_sorted (hp.trans (List.perm_insertionSort _ _).symm) hs
        (List.sorted_insertionSort _ _)
    rw [buildSnapshot_unverified_median_of_ne offers hne, hl]

/-- Five unverified available offers with unsorted prices 3, 1, 2, 5, 4,
used by the C6 witness. -/
def offersC6 : List Offer :=
  [{ dph_base := 3, rented := false, verification := Verification.unverified,
     reliability2 := 96 / 100 },
   { dph_base := 1, rented := false, verification := Verification.unverified,
     reliability2 := 96 / 100 },
   { dph_base := 2, rented := false, verification := Verification.deverified,
     reliability2 := 96 / 100 },
   { dph_base := 5, rented := false, verification := Verification.unverified,
     reliability2 := 96 / 100 },
   { dph_base := 4, rented := false, verification := Verification.unverified,
     reliability2 := 96 / 100 }]

/-- C6 witness: on five offers with prices 3, 1, 2, 5, 4, both medians are
the third element (index 2) of the sorted list [1, 2, 3, 4, 5], namely 3 —
not the mean of any middle pair. -/
theorem median_is_sorted_upper_middle_witness :
    (buildSnapshot offersC6).median_price = some 3 ∧
      (buildSnapshot offersC6).unverified_median_price = some 3 := by
  have hav : availablePrices offersC6 = [3, 1, 2, 5, 4] := by
    norm_num [availablePrices, offersC6]
  have huv : unverifiedAvailablePrices offersC6 = [3, 1, 2, 5, 4] := by
    norm_num [unverifiedAvailablePrices, offersC6]
  have hperm : ([1, 2, 3, 4, 5] : List ℚ).Perm (availablePrices offersC6) := by
    rw [hav]
    decide
  have hperm2 : ([1, 2, 3, 4, 5] : List ℚ).Perm (unverifiedAvailablePrices offersC6) := by
    rw [huv]
    decide
  have hsort : ([1, 2, 3, 4, 5] : List ℚ).Sorted (· ≤ ·) := by decide
  have h3 : round4 (([1, 2, 3, 4, 5] : List ℚ).getD (([1, 2, 3, 4, 5] : List ℚ).length / 2) 0)
      = 3 := by
    norm_num [List.getD]
    exact round4_fix 30000 (by norm_num)
  constructor
  · rw [(median_is_sorted_upper_middle offersC6).1 [1, 2, 3, 4, 5] hperm hsort
      (by rw [hav]; simp), h3]
  · rw [(median_is_sorted_upper_middle offersC6).2 [1, 2, 3, 4, 5] hperm2 hsort
      (by rw [huv]; simp), h3]

/-- C8: an empty eligible-price population — overall or unverified — yields
absent average, median and minimum for that population, never 0.0; in
particular the empty offer list yields every statistic absent. -/
theorem empty_population_stats_absent (offers : List Offer) :
    (availablePrices offers = [] →
       (buildSnapshot offers).avg_price = none ∧ (buildSnapshot offers).median_price = none ∧
         (buildSnapshot offers).min_price = none) ∧
      (unverifiedAvailablePrices offers = [] →
        (buildSnapshot offers).unverified_avg_price = none ∧
          (buildSnapshot offers).unverified_median_price = none ∧
          (buildSnapshot offers).unverified_min_price = none) ∧
      buildSnapshot [] =
        { avg_price := none, median_price := none, min_price := none,
          available_count := 0, verified_count := 0, avg_reliability := 0,
          min_verified_price := none, unverified_count := 0,
          unverified_avg_price := none, unverified_median_price := none,
          unverified_min_price := none } := by
  refine ⟨?_, ?_, rfl⟩
  · intro h
    by_cases ho : offers = []
    · subst ho
      exact ⟨rfl, rfl, rfl⟩
    · unfold buildSnapshot
      rw [if_neg ho]
      dsimp only
      unfold priceStats
      rw [if_pos h]
      exact ⟨rfl, rfl, rfl⟩
  · intro h
    by_cases ho : offers = []
    · subst ho
      exact ⟨rfl, rfl, rfl⟩
    · unfold buildSnapshot
      rw [if_neg ho]
      dsimp only
      unfold priceStats
      rw [if_pos h]
      exact ⟨rfl, rfl, rfl⟩

/-- One rented offer, used by the C8 witness: both eligible-price
populations are empty although the offer list is not. -/
def offersC8 : List Offer :=
  [{ dph_base := 1, rented := true, verification := Verification.unverified,
     reliability2 := 96 / 100 }]

/-- C8 witness: absence of all six price statistics on a non-empty offer
list with no available offer. -/
theorem empty_population_stats_absent_witness :
    (buildSnapshot offersC8).avg_price = none ∧
      (buildSnapshot offersC8).median_price = none ∧
      (buildSnapshot offersC8).min_price = none ∧
      (buildSnapshot offersC8).unverified_avg_price = none ∧
      (buildSnapshot offersC8).unverified_median_price = none ∧
      (buildSnapshot offersC8).unverified_min_price = none := by
  have h1 : availablePrices offersC8 = [] := by norm_num [availablePrices, offersC8]
  have h2 : unverifiedAvailablePrices offersC8 = [] := by
    norm_num [unverifiedAvailablePrices, offersC8]
  obtain ⟨a, b, c⟩ := (empty_population_stats_absent offersC8).1 h1
  obtain ⟨d, e, f⟩ := (empty_population_stats_absent offersC8).2.1 h2
  exact ⟨a, b, c, d, e, f⟩

/-- `round2` fixes any rational equal to an integer multiple of `1 / 100`. -/
theorem round2_fix {x : ℚ} (n : ℤ) (hx : x = (n : ℚ) / 100) : round2 x = x := by
  rw [hx]
  unfold round2
  rw [div_mul_cancel₀ _ (by norm_num : (100 : ℚ) ≠ 0), round_intCast]

/-- One available offer priced 0.00004 — positive but below 0.00005, so
every derived price statistic rounds to 0.0.  Used by C10. -/
def offersC10 : List Offer :=
  [{ dph_base := 4 / 100000, rented := false, verification := Verification.verified,
     reliability2 := 1 }]

/-- Idle machine used by C10, current price 1.5. -/
def machineC10 : Machine :=
  { id := 51, gpu_name := "RTX_5090", num_gpus := 1, current_price := 3 / 2,
    is_rented := false, verified := false, reliability := 96 / 100,
    disk_space := 100, inet_down := 100, inet_up := 100 }

/-- C10: one positive eligible price below 0.00005 makes the overall median
present but 0.0 after rounding; for an idle machine the engine then takes
the no-market-data branch — decreasing to `clamp(1.5 × 0.9) = 1.35` rather
than comparing against the median — exactly as it would on a snapshot with
the median absent: a present 0.0 median is treated identically to a
missing one. -/
theorem present_zero_median_treated_as_missing :
    (buildSnapshot offersC10).median_price = some 0 ∧
      availablePrices offersC10 = [4 / 100000] ∧
      (0 : ℚ) < 4 / 100000 ∧ (4 / 100000 : ℚ) < 5 / 100000 ∧
      calculatePrice defaultConfig machineC10 (buildSnapshot offersC10) =
        some { new_price := 27 / 20, action := PriceAction.DECREASE,
               reason := "Machine IDLE + no market data - decreasing to attract customers" } ∧
      calculatePrice defaultConfig machineC10 (buildSnapshot offersC10) =
        calculatePrice defaultConfig machineC10
          { buildSnapshot offersC10 with median_price := none } := by
  have hav : availablePrices offersC10 = [4 / 100000] := by
    norm_num [availablePrices, offersC10]
  have hvap : verifiedAvailablePrices offersC10 = [4 / 100000] := by
    norm_num [verifiedAvailablePrices, offersC10]
  have huap : unverifiedAvailablePrices offersC10 = [] := by
    norm_num [unverifiedAvailablePrices, offersC10]
    decide
  have hrel : positiveReliabilities offersC10 = [1] := by
    norm_num [positiveReliabilities, offersC10]
  have hr4 : round4 (4 / 100000) = 0 := by
    have := @round4_eq_of (4 / 100000) 0 (by norm_num) (by norm_num)
    simpa using this
  have hos : priceStats (availablePrices offersC10) = (some 0, some 0, some 0) := by
    rw [hav]
    unfold priceStats
    rw [if_neg (by simp)]
    simp [List.insertionSort, List.orderedInsert, pyMin, List.getD, hr4]
  have hus : priceStats (unverifiedAvailablePrices offersC10) = (none, none, none) := by
    rw [huap]
    unfold priceStats
    rw [if_pos rfl]
  have hmv : minVerifiedPrice offersC10 = some 0 := by
    unfold minVerifiedPrice
    dsimp only
    rw [hvap, if_neg (by simp)]
    simp [pyMin, hr4]
  have har : avgReliability offersC10 = 1 := by
    unfold avgReliability
    dsimp only
    rw [hrel, if_neg (by simp)]
    rw [show (([1] : List ℚ).sum / (([1] : List ℚ).length : ℚ)) = 1 by norm_num]
    exact round2_fix 100 (by norm_num)
  have hsnap : buildSnapshot offersC10 =
      { avg_price := some 0, median_price := some 0, min_price := some 0,
        available_count := 1, verified_count := 1, avg_reliability := 1,
        min_verified_price := some 0, unverified_count := 0,
        unverified_avg_price := none, unverified_median_price := none,
        unverified_min_price := none } := by
    unfold buildSnapshot
    rw [if_neg (by simp [offersC10])]
    dsimp only
    rw [hos, hus, har]
    rw [show verifiedCount offersC10 = 1 from by norm_num [verifiedCount, offersC10]]
    rw [show unverifiedCount offersC10 = 0 from by
      norm_num [unverifiedCount, offersC10]
      decide]
    rw [hmv]
    rfl
  have hclamp : clampPrice defaultConfig (3 / 2 * (9 / 10)) = 27 / 20 := by
    unfold clampPrice defaultConfig
    rw [show ((3 : ℚ) / 2 * (9 / 10)) = 27 / 20 by norm_num]
    rw [min_eq_left (by norm_num), max_eq_right (by norm_num)]
    exact round4_fix 13500 (by norm_num)
  have hdec : calculatePrice defaultConfig machineC10 (buildSnapshot offersC10) =
      some { new_price := 27 / 20, action := PriceAction.DECREASE,
             reason := "Machine IDLE + no market data - decreasing to attract customers" } := by
    rw [hsnap]
    unfold calculatePrice
    rw [if_neg (by simp [machineC10])]
    unfold priceForIdleMachine
    rw [if_neg (by simp)]
    rw [show machineC10.current_price = 3 / 2 from rfl, hclamp]
  have hdec2 : calculatePrice defaultConfig machineC10
      { buildSnapshot offersC10 with median_price := none } =
      some { new_price := 27 / 20, action := PriceAction.DECREASE,
             reason := "Machine IDLE + no market data - decreasing to attract customers" } := by
    rw [hsnap]
    unfold calculatePrice
    rw [if_neg (by simp [machineC10])]
    unfold priceForIdleMachine
    rw [if_neg (by simp)]
    rw [show machineC10.current_price = 3 / 2 from rfl, hclamp]
  exact ⟨by rw [hsnap], hav, by norm_num, by norm_num, hdec, hdec.trans hdec2.symm⟩
